import Mathlib

/-!
Shallow embedding of `src/main.py` (G-Calendar-Automation): a linear batch
importer that reads rows from a CSV file and inserts one recurring event per
row into a Google Calendar, after an OAuth credential load / refresh /
interactive-grant sequence.

External effects (token refresh, interactive grant, event insertion, token
file write) are modelled by an explicit `World` of oracle outcomes and a
trace of `Action`s, so that claims about which calls happen, in which order,
and what survives an abort can be stated and proved.
-/

namespace GCal

/-- A parsed date-time as produced by `datetime.strptime(..., "%Y-%m-%d %H:%M")`:
the seconds field is always 0 for this format. -/
structure DateTime where
  year : Nat
  month : Nat
  day : Nat
  hour : Nat
  minute : Nat
  second : Nat
deriving DecidableEq, Repr

/-- Gregorian leap-year rule, as in Python's `calendar.isleap` used by `datetime`. -/
def isLeap (y : Nat) : Bool := y % 4 == 0 && (y % 100 != 0 || y % 400 == 0)

/-- Number of days in a month, as validated by the `datetime` constructor. -/
def daysInMonth (y m : Nat) : Nat :=
  if m = 2 then (if isLeap y then 29 else 28)
  else if m = 4 ∨ m = 6 ∨ m = 9 ∨ m = 11 then 30
  else 31

/-- Days in all years strictly before year `y` (proleptic Gregorian), as in
CPython's `datetime._days_before_year`. -/
def daysBeforeYear (y : Nat) : Nat :=
  (y - 1) * 365 + (y - 1) / 4 - (y - 1) / 100 + (y - 1) / 400

/-- Days in year `y` strictly before month `m`, as in CPython's
`datetime._days_before_month` (cumulative table plus leap adjustment). -/
def daysBeforeMonth (y m : Nat) : Nat :=
  (match m with
   | 1 => 0 | 2 => 31 | 3 => 59 | 4 => 90 | 5 => 120 | 6 => 151
   | 7 => 181 | 8 => 212 | 9 => 243 | 10 => 273 | 11 => 304 | _ => 334)
  + (if 2 < m ∧ isLeap y then 1 else 0)

/-- Proleptic Gregorian ordinal of a date, day 1 being 0001-01-01, as in
CPython's `date.toordinal`. -/
def toordinal (dt : DateTime) : Nat :=
  daysBeforeYear dt.year + daysBeforeMonth dt.year dt.month + dt.day

/-- Python's `date.weekday()`: Monday = 0, ..., Sunday = 6. -/
def weekday (dt : DateTime) : Nat := (toordinal dt + 6) % 7

/-- Full English weekday name as produced by `strftime('%A')` in the C locale,
indexed by `weekday` (Monday = 0). -/
def weekdayName : Nat → String
  | 0 => "Monday"
  | 1 => "Tuesday"
  | 2 => "Wednesday"
  | 3 => "Thursday"
  | 4 => "Friday"
  | 5 => "Saturday"
  | _ => "Sunday"

/-- Python's `s[:2].upper()`: take the first two characters and uppercase them. -/
def upper2 (s : String) : String := ⟨(s.data.take 2).map Char.toUpper⟩

/-- Embedding of `create_weekly_recurrence` (src/main.py line 88-90): returns the
one-element list `["RRULE:FREQ=WEEKLY;COUNT=52;BYDAY=" + start.strftime('%A')[:2].upper()]`. -/
def create_weekly_recurrence (start_date : DateTime) : List String :=
  ["RRULE:FREQ=WEEKLY;COUNT=52;BYDAY=" ++ upper2 (weekdayName (weekday start_date))]

/-- Numeric value of an ASCII digit character. -/
def digitVal (c : Char) : Nat := c.toNat - 48

/-- `strptime` `%Y`: exactly four digits. -/
def parseYear : List Char → Option (Nat × List Char)
  | a :: b :: c :: d :: rest =>
    if a.isDigit ∧ b.isDigit ∧ c.isDigit ∧ d.isDigit then
      some (1000 * digitVal a + 100 * digitVal b + 10 * digitVal c + digitVal d, rest)
    else none
  | _ => none

/-- `strptime` `%m` (regex `1[0-2]|0[1-9]|[1-9]`): a two-digit month 01..12 if
the next two characters form one, else a single digit 1..9. -/
def parseMonth : List Char → Option (Nat × List Char)
  | a :: b :: rest =>
    if a.isDigit ∧ b.isDigit ∧ 1 ≤ 10 * digitVal a + digitVal b ∧
        10 * digitVal a + digitVal b ≤ 12 then
      some (10 * digitVal a + digitVal b, rest)
    else if a.isDigit ∧ 1 ≤ digitVal a then some (digitVal a, b :: rest)
    else none
  | [a] => if a.isDigit ∧ 1 ≤ digitVal a then some (digitVal a, []) else none
  | [] => none

/-- `strptime` `%d` (regex `3[01]|[12]\d|0[1-9]|[1-9]`): a two-digit day 01..31
if the next two characters form one, else a single digit 1..9. -/
def parseDay : List Char → Option (Nat × List Char)
  | a :: b :: rest =>
    if a.isDigit ∧ b.isDigit ∧ 1 ≤ 10 * digitVal a + digitVal b ∧
        10 * digitVal a + digitVal b ≤ 31 then
      some (10 * digitVal a + digitVal b, rest)
    else if a.isDigit ∧ 1 ≤ digitVal a then some (digitVal a, b :: rest)
    else none
  | [a] => if a.isDigit ∧ 1 ≤ digitVal a then some (digitVal a, []) else none
  | [] => none

/-- `strptime` `%H` (regex `2[0-3]|[0-1]\d|\d`): a two-digit hour 00..23 if the
next two characters form one, else a single digit 0..9. -/
def parseHour : List Char → Option (Nat × List Char)
  | a :: b :: rest =>
    if a.isDigit ∧ b.isDigit ∧ 10 * digitVal a + digitVal b ≤ 23 then
      some (10 * digitVal a + digitVal b, rest)
    else if a.isDigit then some (digitVal a, b :: rest)
    else none
  | [a] => if a.isDigit then some (digitVal a, []) else none
  | [] => none

/-- `strptime` `%M` (regex `[0-5]\d|\d`): a two-digit minute 00..59 if the next
two characters form one, else a single digit 0..9. -/
def parseMinute : List Char → Option (Nat × List Char)
  | a :: b :: rest =>
    if a.isDigit ∧ b.isDigit ∧ 10 * digitVal a + digitVal b ≤ 59 then
      some (10 * digitVal a + digitVal b, rest)
    else if a.isDigit then some (digitVal a, b :: rest)
    else none
  | [a] => if a.isDigit then some (digitVal a, []) else none
  | [] => none

/-- ASCII whitespace as matched by `\s` in `strptime`'s compiled regex. -/
def isPyWs (c : Char) : Bool :=
  c = ' ' ∨ c = '\t' ∨ c = '\n' ∨ c = '\r' ∨ c = '\x0b' ∨ c = '\x0c'

/-- A literal whitespace in a `strptime` format matches one or more whitespace
characters (`\s+`). -/
def expectWs : List Char → Option (List Char)
  | c :: rest => if isPyWs c then some (rest.dropWhile isPyWs) else none
  | [] => none

/-- An escaped literal character in the `strptime` format regex. -/
def expectChar (c : Char) : List Char → Option (List Char)
  | x :: rest => if x = c then some rest else none
  | [] => none

/-- Embedding of `datetime.strptime(s, "%Y-%m-%d %H:%M")` (src/main.py lines
114-115): matches the compiled format regex against the whole string, then
applies the `datetime` constructor's range validation (year at least 1, day at
most the month's length). Returns `none` where Python raises `ValueError`. -/
def strptimeYMDHM (s : String) : Option DateTime := do
  let (y, r1) ← parseYear s.data
  let r2 ← expectChar '-' r1
  let (mo, r3) ← parseMonth r2
  let r4 ← expectChar '-' r3
  let (d, r5) ← parseDay r4
  let r6 ← expectWs r5
  let (h, r7) ← parseHour r6
  let r8 ← expectChar ':' r7
  let (mi, r9) ← parseMinute r8
  if r9 = [] ∧ 1 ≤ y ∧ d ≤ daysInMonth y mo then
    pure ⟨y, mo, d, h, mi, 0⟩
  else none

/-- Zero-padded two-digit rendering used by `datetime.isoformat`. -/
def pad2 (n : Nat) : String := if n < 10 then "0" ++ toString n else toString n

/-- Zero-padded four-digit year rendering used by `datetime.isoformat`. -/
def pad4 (n : Nat) : String :=
  if n < 10 then "000" ++ toString n
  else if n < 100 then "00" ++ toString n
  else if n < 1000 then "0" ++ toString n
  else toString n

/-- Python's `datetime.isoformat()` for a zero-microsecond value:
`YYYY-MM-DDTHH:MM:SS`. -/
def isoformat (dt : DateTime) : String :=
  pad4 dt.year ++ "-" ++ pad2 dt.month ++ "-" ++ pad2 dt.day ++ "T" ++
    pad2 dt.hour ++ ":" ++ pad2 dt.minute ++ ":" ++ pad2 dt.second

/-- One data row of `calendar_events.csv`, keyed by the header
`Subject, Start Date, Start Time, End Date, End Time, Description, Location`. -/
structure Row where
  subject : String
  startDate : String
  startTime : String
  endDate : String
  endTime : String
  description : String
  location : String
deriving DecidableEq, Repr

/-- The event body dictionary built in `add_events_from_csv`
(src/main.py lines 117-130). -/
structure Event where
  summary : String
  location : String
  description : String
  startDateTime : String
  startTimeZone : String
  endDateTime : String
  endTimeZone : String
  recurrence : List String
deriving DecidableEq, Repr

/-- Build the event body from a row and its two parsed date-times, exactly as
the dictionary literal in src/main.py lines 117-130. -/
def rowEvent (r : Row) (start_datetime end_datetime : DateTime) : Event :=
  { summary := r.subject
    location := r.location
    description := r.description
    startDateTime := isoformat start_datetime
    startTimeZone := "America/New_York"
    endDateTime := isoformat end_datetime
    endTimeZone := "America/New_York"
    recurrence := create_weekly_recurrence start_datetime }

/-- The event a row produces, when both of its date-time fields parse. -/
def rowEventOpt (r : Row) : Option Event :=
  match strptimeYMDHM (r.startDate ++ " " ++ r.startTime),
        strptimeYMDHM (r.endDate ++ " " ++ r.endTime) with
  | some s, some e => some (rowEvent r s e)
  | _, _ => none

/-- The `for row in reader` loop of `add_events_from_csv` (src/main.py lines
113-136). `service i` is the remote API's verdict on the `i`-th insert call
(`true` = created, `false` = `HttpError`, which the loop catches and logs).
Returns the insert calls actually issued, each with its outcome, and `true`
iff the loop ran to completion; a `strptime` failure is not caught, so it
aborts the loop with no insert call for that row (flag `false`). -/
def processRows (service : Nat → Bool) : Nat → List Row → List (Event × Bool) × Bool
  | _, [] => ([], true)
  | i, r :: rest =>
    match strptimeYMDHM (r.startDate ++ " " ++ r.startTime),
          strptimeYMDHM (r.endDate ++ " " ++ r.endTime) with
    | some sdt, some edt =>
      let res := processRows service (i + 1) rest
      ((rowEvent r sdt edt, service i) :: res.1, res.2)
    | _, _ => ([], false)

/-- Embedding of `add_events_from_csv` (src/main.py lines 92-136): re-reads the
calendar id and raises `ValueError` (modelled `none`) when it is unset or
empty, otherwise runs the per-row loop. The inner pair carries the insert
calls issued and whether the loop completed without an uncaught exception. -/
def add_events_from_csv (service : Nat → Bool) (calendarId : Option String)
    (rows : List Row) : Option (List (Event × Bool) × Bool) :=
  if calendarId = none ∨ calendarId = some "" then none
  else some (processRows service 0 rows)

/-- The fields of a loaded `google.oauth2.credentials.Credentials` object that
`authenticate_google_calendar` inspects. -/
structure Creds where
  valid : Bool
  expired : Bool
  refreshToken : Bool
deriving DecidableEq, Repr

/-- Externally visible effects of one run, in order of occurrence. -/
inductive Action where
  | refreshCall : Action
  | interactiveCall : Action
  | writeToken : Action
  | insertCall : Event → Bool → Action
deriving DecidableEq, Repr

/-- Oracle outcomes for one run: the environment variable, the token file's
loaded credentials (if `token.json` exists), what `creds.refresh(Request())`
and `flow.run_local_server(port=8080)` would yield (`none` = the call raises),
and the per-call verdict of `service.events().insert(...)`. -/
structure World where
  calendarId : Option String
  tokenFile : Option Creds
  refreshResult : Option Creds
  interactiveResult : Option Creds
  service : Nat → Bool

/-- Embedding of `authenticate_google_calendar` (src/main.py lines 63-86).
Returns the trace of external actions performed and the credentials the
service handle is built from, or `none` when an exception escapes (a failed
refresh or a failed interactive flow). `token.json` is written exactly once
after a successful refresh or interactive grant; the valid-token path performs
no external action. -/
def authenticate_google_calendar (w : World) : List Action × Option Creds :=
  match w.tokenFile with
  | some c =>
    if c.valid then ([], some c)
    else if c.expired ∧ c.refreshToken then
      match w.refreshResult with
      | some c' => ([.refreshCall, .writeToken], some c')
      | none => ([.refreshCall], none)
    else
      match w.interactiveResult with
      | some c' => ([.interactiveCall, .writeToken], some c')
      | none => ([.interactiveCall], none)
  | none =>
    match w.interactiveResult with
    | some c' => ([.interactiveCall, .writeToken], some c')
    | none => ([.interactiveCall], none)

/-- The two ways the body of `main` returns without an exception: the early
`return` when `CALENDAR_ID` is unset, and a completed import. -/
inductive BodyResult where
  | configReturn : BodyResult
  | importDone : List (Event × Bool) → BodyResult
deriving DecidableEq, Repr

/-- The code inside `main`'s `try:` block (src/main.py lines 140-149):
check `CALENDAR_ID`, authenticate, then import. Returns the action trace and
`none` when an exception escapes the body (to be caught by `except`). -/
def mainBody (w : World) (rows : List Row) : List Action × Option BodyResult :=
  if w.calendarId = none ∨ w.calendarId = some "" then ([], some .configReturn)
  else
    match authenticate_google_calendar w with
    | (tr, none) => (tr, none)
    | (tr, some _) =>
      match add_events_from_csv w.service w.calendarId rows with
      | none => (tr, none)
      | some (calls, done) =>
        (tr ++ calls.map (fun c => Action.insertCall c.1 c.2),
         if done then some (.importDone calls) else none)

/-- How a run of `main` ends: the early `CALENDAR_ID` error log and return, the
top-level `except` clause logging the exception and returning, or a completed
import. In every case `main` returns normally. -/
inductive MainOutcome where
  | configError : MainOutcome
  | errorLogged : MainOutcome
  | completed : List (Event × Bool) → MainOutcome
deriving DecidableEq, Repr

/-- Embedding of `main` (src/main.py lines 138-151): run the body and catch any
exception, so the function always returns. -/
def main (w : World) (rows : List Row) : List Action × MainOutcome :=
  match mainBody w rows with
  | (tr, some .configReturn) => (tr, .configError)
  | (tr, some (.importDone calls)) => (tr, .completed calls)
  | (tr, none) => (tr, .errorLogged)

/-- The spec's standard weekday-to-code mapping (Monday = `MO`, ..., Sunday =
`SU`), stated from the spec's words, to be compared with what the code derives. -/
def specWeekdayCode : Nat → String
  | 0 => "MO"
  | 1 => "TU"
  | 2 => "WE"
  | 3 => "TH"
  | 4 => "FR"
  | 5 => "SA"
  | _ => "SU"

theorem processRows_cons (s : Nat → Bool) (i : Nat) (r : Row) (rest : List Row) :
    processRows s i (r :: rest) =
      match strptimeYMDHM (r.startDate ++ " " ++ r.startTime),
            strptimeYMDHM (r.endDate ++ " " ++ r.endTime) with
      | some sdt, some edt =>
        ((rowEvent r sdt edt, s i) :: (processRows s (i + 1) rest).1,
         (processRows s (i + 1) rest).2)
      | _, _ => ([], false) := rfl

theorem processRows_cons_ok (s : Nat → Bool) (i : Nat) (r : Row) (rest : List Row)
    (ev : Event) (h : rowEventOpt r = some ev) :
    processRows s i (r :: rest) =
      ((ev, s i) :: (processRows s (i + 1) rest).1, (processRows s (i + 1) rest).2) := by
  have hc := processRows_cons s i r rest
  unfold rowEventOpt at h
  cases h1 : strptimeYMDHM (r.startDate ++ " " ++ r.startTime) with
  | none => rw [h1] at h; exact Option.noConfusion h
  | some sdt =>
    cases h2 : strptimeYMDHM (r.endDate ++ " " ++ r.endTime) with
    | none => rw [h1, h2] at h; exact Option.noConfusion h
    | some edt =>
      rw [h1, h2] at h hc
      simp only [Option.some.injEq] at h
      rw [← h]
      exact hc

theorem processRows_cons_bad (s : Nat → Bool) (i : Nat) (r : Row) (rest : List Row)
    (h : rowEventOpt r = none) :
    processRows s i (r :: rest) = ([], false) := by
  have hc := processRows_cons s i r rest
  unfold rowEventOpt at h
  cases h1 : strptimeYMDHM (r.startDate ++ " " ++ r.startTime) with
  | none => rw [h1] at hc; exact hc
  | some sdt =>
    cases h2 : strptimeYMDHM (r.endDate ++ " " ++ r.endTime) with
    | none => rw [h1, h2] at hc; exact hc
    | some edt => rw [h1, h2] at h; exact Option.noConfusion h

theorem length_filterMap_all_some {α β : Type} (f : α → Option β) (l : List α)
    (h : ∀ r ∈ l, (f r).isSome) : (l.filterMap f).length = l.length := by
  induction l with
  | nil => rfl
  | cons a t ih =>
    obtain ⟨b, hb⟩ := Option.isSome_iff_exists.mp (h a (by simp))
    simp [List.filterMap_cons, hb, ih fun r hr => h r (by simp [hr])]

theorem processRows_all_ok (s : Nat → Bool) (rows : List Row) :
    ∀ i, (∀ r ∈ rows, (rowEventOpt r).isSome) →
      (processRows s i rows).2 = true ∧
      (processRows s i rows).1.map Prod.fst = rows.filterMap rowEventOpt ∧
      (processRows s i rows).1.map Prod.snd =
        (List.range rows.length).map (fun k => s (i + k)) := by
  induction rows with
  | nil => intro i _; exact ⟨rfl, rfl, rfl⟩
  | cons r rest ih =>
    intro i hall
    obtain ⟨ev, hev⟩ := Option.isSome_iff_exists.mp (hall r (by simp))
    obtain ⟨ih1, ih2, ih3⟩ := ih (i + 1) fun x hx => hall x (by simp [hx])
    rw [processRows_cons_ok s i r rest ev hev]
    refine ⟨ih1, ?_, ?_⟩
    · simp [List.filterMap_cons, hev, ih2]
    · rw [List.map_cons, ih3, List.length_cons, List.range_succ_eq_map, List.map_cons,
        List.map_map]
      refine congrArg₂ List.cons (by simp) (List.map_congr_left fun k _ => ?_)
      show s (i + 1 + k) = s (i + (k + 1))
      congr 1
      omega

theorem processRows_append_bad (s : Nat → Bool) (bad : Row) (post : List Row)
    (hbad : rowEventOpt bad = none) :
    ∀ (pre : List Row) (i : Nat), (∀ r ∈ pre, (rowEventOpt r).isSome) →
      (processRows s i (pre ++ bad :: post)).2 = false ∧
      (processRows s i (pre ++ bad :: post)).1.map Prod.fst =
        pre.filterMap rowEventOpt := by
  intro pre
  induction pre with
  | nil => intro i _; simp [processRows_cons_bad s i bad post hbad]
  | cons r rest ih =>
    intro i hall
    obtain ⟨ev, hev⟩ := Option.isSome_iff_exists.mp (hall r (by simp))
    obtain ⟨ih1, ih2⟩ := ih (i + 1) fun x hx => hall x (by simp [hx])
    rw [List.cons_append, processRows_cons_ok s i r _ ev hev]
    exact ⟨ih1, by simp [List.filterMap_cons, hev, ih2]⟩

/-- C1 (counterexample): for the parsed Monday start 2024-10-14 07:00, the
recurrence list the code derives is `["RRULE:FREQ=WEEKLY;COUNT=52;BYDAY=MO"]`,
which is not the string `FREQ=WEEKLY;COUNT=52;BYDAY=MO` claimed: every derived
rule carries the `RRULE:` prefix. -/
theorem C1_counterexample :
    strptimeYMDHM "2024-10-14 07:00" = some ⟨2024, 10, 14, 7, 0, 0⟩ ∧
    create_weekly_recurrence ⟨2024, 10, 14, 7, 0, 0⟩ =
      ["RRULE:FREQ=WEEKLY;COUNT=52;BYDAY=MO"] ∧
    create_weekly_recurrence ⟨2024, 10, 14, 7, 0, 0⟩ ≠
      ["FREQ=WEEKLY;COUNT=52;BYDAY=MO"] :=
  ⟨by decide, by decide, by decide⟩

/-- C1 (amended): for every row whose start date/time parses, the derived
recurrence is exactly `["RRULE:FREQ=WEEKLY;COUNT=52;BYDAY=<XX>"]`, where `<XX>`
is the standard two-letter code of the start date's weekday (a Monday start
yields `MO`, a Tuesday start `TU`, and so on for all seven weekdays). -/
theorem C1_recurrence_rule_weekday (r : Row) (dt : DateTime)
    (h : strptimeYMDHM (r.startDate ++ " " ++ r.startTime) = some dt) :
    create_weekly_recurrence dt =
      ["RRULE:FREQ=WEEKLY;COUNT=52;BYDAY=" ++ specWeekdayCode (weekday dt)] := by
  have h7 : weekday dt < 7 := Nat.mod_lt _ (by decide)
  unfold create_weekly_recurrence
  set k := weekday dt with hk
  interval_cases k <;> decide

/-- C1 (witness): the amended theorem applied to the concrete Monday row. -/
theorem C1_recurrence_rule_weekday_witness :
    create_weekly_recurrence ⟨2024, 10, 14, 7, 0, 0⟩ =
      ["RRULE:FREQ=WEEKLY;COUNT=52;BYDAY=" ++
        specWeekdayCode (weekday ⟨2024, 10, 14, 7, 0, 0⟩)] :=
  C1_recurrence_rule_weekday
    ⟨"Exercise", "2024-10-14", "07:00", "2024-10-14", "08:00", "Workout", "Gym"⟩
    ⟨2024, 10, 14, 7, 0, 0⟩ (by decide)

/-- C3: when some row fails to parse under `%Y-%m-%d %H:%M`, the import aborts
there: the loop flag is `false` (the exception escapes the per-row loop), the
insert calls issued are exactly those of the parsing rows before the failing
one, in order, and no later row is submitted. -/
theorem C3_parse_failure_aborts (s : Nat → Bool) (pre : List Row) (bad : Row)
    (post : List Row) (hpre : ∀ r ∈ pre, (rowEventOpt r).isSome)
    (hbad : rowEventOpt bad = none) :
    (processRows s 0 (pre ++ bad :: post)).2 = false ∧
    (processRows s 0 (pre ++ bad :: post)).1.map Prod.fst =
      pre.filterMap rowEventOpt ∧
    (processRows s 0 (pre ++ bad :: post)).1.length = pre.length := by
  obtain ⟨h1, h2⟩ := processRows_append_bad s bad post hbad pre 0 hpre
  refine ⟨h1, h2, ?_⟩
  have := congrArg List.length h2
  simpa [length_filterMap_all_some rowEventOpt pre hpre] using this

/-- C3 (witness): a concrete three-row table whose middle row has an invalid
start date (2024-02-30): only the first row's insert is issued. -/
theorem C3_parse_failure_aborts_witness :
    (processRows (fun _ => true) 0
        [⟨"A", "2024-10-14", "07:00", "2024-10-14", "08:00", "d1", "l1"⟩,
         ⟨"B", "2024-02-30", "07:00", "2024-03-01", "08:00", "d2", "l2"⟩,
         ⟨"C", "2024-10-16", "07:00", "2024-10-16", "08:00", "d3", "l3"⟩]).2 = false ∧
    (processRows (fun _ => true) 0
        [⟨"A", "2024-10-14", "07:00", "2024-10-14", "08:00", "d1", "l1"⟩,
         ⟨"B", "2024-02-30", "07:00", "2024-03-01", "08:00", "d2", "l2"⟩,
         ⟨"C", "2024-10-16", "07:00", "2024-10-16", "08:00", "d3", "l3"⟩]).1.map Prod.fst =
      List.filterMap rowEventOpt
        [⟨"A", "2024-10-14", "07:00", "2024-10-14", "08:00", "d1", "l1"⟩] ∧
    (processRows (fun _ => true) 0
        [⟨"A", "2024-10-14", "07:00", "2024-10-14", "08:00", "d1", "l1"⟩,
         ⟨"B", "2024-02-30", "07:00", "2024-03-01", "08:00", "d2", "l2"⟩,
         ⟨"C", "2024-10-16", "07:00", "2024-10-16", "08:00", "d3", "l3"⟩]).1.length = 1 :=
  C3_parse_failure_aborts (fun _ => true)
    [⟨"A", "2024-10-14", "07:00", "2024-10-14", "08:00", "d1", "l1"⟩]
    ⟨"B", "2024-02-30", "07:00", "2024-03-01", "08:00", "d2", "l2"⟩
    [⟨"C", "2024-10-16", "07:00", "2024-10-16", "08:00", "d3", "l3"⟩]
    (by decide) (by decide)

/-- C5: for a table whose rows all parse, the import issues exactly one insert
call per data row, in table order — the call list is the row list's one-to-one
image, its outcomes are the service's verdicts at indices 0, 1, ..., and the
loop completes. -/
theorem C5_one_insert_per_row_in_order (s : Nat → Bool) (cid : String)
    (rows : List Row) (hcid : cid ≠ "")
    (hall : ∀ r ∈ rows, (rowEventOpt r).isSome) :
    add_events_from_csv s (some cid) rows =
      some ((processRows s 0 rows).1, true) ∧
    (processRows s 0 rows).1.length = rows.length ∧
    (processRows s 0 rows).1.map Prod.fst = rows.filterMap rowEventOpt ∧
    (processRows s 0 rows).1.map Prod.snd = (List.range rows.length).map s := by
  obtain ⟨h1, h2, h3⟩ := processRows_all_ok s rows 0 hall
  refine ⟨?_, ?_, h2, ?_⟩
  · unfold add_events_from_csv
    have hne : ¬((some cid : Option String) = none ∨ (some cid : Option String) = some "") := by
      simp [hcid]
    rw [if_neg hne, ← h1]
  · have := congrArg List.length h2
    simpa [length_filterMap_all_some rowEventOpt rows hall] using this
  · simpa using h3

/-- C5 (witness): a concrete two-row table yields exactly two insert calls in
table order. -/
theorem C5_one_insert_per_row_in_order_witness :
    add_events_from_csv (fun _ => true) (some "cal")
        [⟨"A", "2024-10-14", "07:00", "2024-10-14", "08:00", "d1", "l1"⟩,
         ⟨"B", "2024-10-15", "07:00", "2024-10-15", "08:00", "d2", "l2"⟩] =
      some ((processRows (fun _ => true) 0
        [⟨"A", "2024-10-14", "07:00", "2024-10-14", "08:00", "d1", "l1"⟩,
         ⟨"B", "2024-10-15", "07:00", "2024-10-15", "08:00", "d2", "l2"⟩]).1, true) ∧
    (processRows (fun _ => true) 0
        [⟨"A", "2024-10-14", "07:00", "2024-10-14", "08:00", "d1", "l1"⟩,
         ⟨"B", "2024-10-15", "07:00", "2024-10-15", "08:00", "d2", "l2"⟩]).1.length = 2 :=
  have h := C5_one_insert_per_row_in_order (fun _ => true) "cal"
    [⟨"A", "2024-10-14", "07:00", "2024-10-14", "08:00", "d1", "l1"⟩,
     ⟨"B", "2024-10-15", "07:00", "2024-10-15", "08:00", "d2", "l2"⟩]
    (by decide) (by decide)
  ⟨h.1, h.2.1⟩

/-- C4: a remote-API error on one row (service verdict `false` at index `k`)
never prevents submission of the other rows: the loop still completes, every
row still gets its insert call in order (in particular each row after `k`), and
the per-call outcomes are exactly the service's verdicts. -/
theorem C4_api_error_is_row_isolated (s : Nat → Bool) (rows : List Row) (k : Nat)
    (hall : ∀ r ∈ rows, (rowEventOpt r).isSome) (hk : k < rows.length)
    (hfail : s k = false) :
    (processRows s 0 rows).2 = true ∧
    (processRows s 0 rows).1.length = rows.length ∧
    (processRows s 0 rows).1.map Prod.fst = rows.filterMap rowEventOpt ∧
    (processRows s 0 rows).1.map Prod.snd = (List.range rows.length).map s := by
  obtain ⟨h1, h2, h3⟩ := processRows_all_ok s rows 0 hall
  refine ⟨h1, ?_, h2, by simpa using h3⟩
  have := congrArg List.length h2
  simpa [length_filterMap_all_some rowEventOpt rows hall] using this

/-- C4 (witness): a concrete four-row table where the API rejects row 3 (index
2): the loop completes and all four insert calls are issued. -/
theorem C4_api_error_is_row_isolated_witness :
    (processRows (fun i => decide (i ≠ 2)) 0
        [⟨"A", "2024-10-14", "07:00", "2024-10-14", "08:00", "d1", "l1"⟩,
         ⟨"B", "2024-10-15", "07:00", "2024-10-15", "08:00", "d2", "l2"⟩,
         ⟨"C", "2024-10-16", "07:00", "2024-10-16", "08:00", "d3", "l3"⟩,
         ⟨"D", "2024-10-17", "07:00", "2024-10-17", "08:00", "d4", "l4"⟩]).2 = true ∧
    (processRows (fun i => decide (i ≠ 2)) 0
        [⟨"A", "2024-10-14", "07:00", "2024-10-14", "08:00", "d1", "l1"⟩,
         ⟨"B", "2024-10-15", "07:00", "2024-10-15", "08:00", "d2", "l2"⟩,
         ⟨"C", "2024-10-16", "07:00", "2024-10-16", "08:00", "d3", "l3"⟩,
         ⟨"D", "2024-10-17", "07:00", "2024-10-17", "08:00", "d4", "l4"⟩]).1.length = 4 :=
  have h := C4_api_error_is_row_isolated (fun i => decide (i ≠ 2))
    [⟨"A", "2024-10-14", "07:00", "2024-10-14", "08:00", "d1", "l1"⟩,
     ⟨"B", "2024-10-15", "07:00", "2024-10-15", "08:00", "d2", "l2"⟩,
     ⟨"C", "2024-10-16", "07:00", "2024-10-16", "08:00", "d3", "l3"⟩,
     ⟨"D", "2024-10-17", "07:00", "2024-10-17", "08:00", "d4", "l4"⟩]
    2 (by decide) (by decide) (by decide)
  ⟨h.1, h.2.1⟩

/-- C6 (counterexample): for the row
`Exercise,2024-10-14,07:00,2024-10-14,08:00,Workout,Gym` the built event's
recurrence field is `["RRULE:FREQ=WEEKLY;COUNT=52;BYDAY=MO"]`, not
`FREQ=WEEKLY;COUNT=52;BYDAY=MO` as claimed. -/
theorem C6_counterexample :
    rowEventOpt
        ⟨"Exercise", "2024-10-14", "07:00", "2024-10-14", "08:00", "Workout", "Gym"⟩ =
      some { summary := "Exercise", location := "Gym", description := "Workout",
             startDateTime := "2024-10-14T07:00:00",
             startTimeZone := "America/New_York",
             endDateTime := "2024-10-14T08:00:00",
             endTimeZone := "America/New_York",
             recurrence := ["RRULE:FREQ=WEEKLY;COUNT=52;BYDAY=MO"] } ∧
    (["RRULE:FREQ=WEEKLY;COUNT=52;BYDAY=MO"] : List String) ≠
      ["FREQ=WEEKLY;COUNT=52;BYDAY=MO"] :=
  ⟨by decide, by decide⟩

/-- C6 (amended): the Monday row
`Exercise,2024-10-14,07:00,2024-10-14,08:00,Workout,Gym` builds exactly the
event with summary `Exercise`, location `Gym`, description `Workout`, start
`2024-10-14T07:00:00` and end `2024-10-14T08:00:00` in the fixed zone
`America/New_York`, and recurrence `["RRULE:FREQ=WEEKLY;COUNT=52;BYDAY=MO"]`. -/
theorem C6_concrete_monday_row_event :
    rowEventOpt
        ⟨"Exercise", "2024-10-14", "07:00", "2024-10-14", "08:00", "Workout", "Gym"⟩ =
      some { summary := "Exercise", location := "Gym", description := "Workout",
             startDateTime := "2024-10-14T07:00:00",
             startTimeZone := "America/New_York",
             endDateTime := "2024-10-14T08:00:00",
             endTimeZone := "America/New_York",
             recurrence := ["RRULE:FREQ=WEEKLY;COUNT=52;BYDAY=MO"] } := by
  decide

/-- C2 (counterexample): with a loaded token that is invalid, expired and has a
refresh token, and a refresh that fails, authentication performs the one
refresh call and then raises (`none`): the interactive flow is never entered,
even though it would have succeeded in this world. -/
theorem C2_counterexample :
    authenticate_google_calendar
        { calendarId := some "cal", tokenFile := some ⟨false, true, true⟩,
          refreshResult := none, interactiveResult := some ⟨true, false, false⟩,
          service := fun _ => true } = ([Action.refreshCall], none) ∧
    Action.interactiveCall ∉ ([Action.refreshCall] : List Action) :=
  ⟨rfl, by decide⟩

/-- C2 (amended): when the loaded token is invalid, expired and carries a
refresh token, exactly one refresh attempt is made; if that refresh fails, the
exception propagates out of `authenticate_google_calendar` (the run aborts at
the top-level handler) and the interactive reauthorization flow is never
entered. -/
theorem C2_refresh_failure_aborts (w : World) (c : Creds)
    (hload : w.tokenFile = some c) (hv : c.valid = false) (he : c.expired = true)
    (hr : c.refreshToken = true) :
    (authenticate_google_calendar w).1.count Action.refreshCall = 1 ∧
    (w.refreshResult = none →
      (authenticate_google_calendar w).2 = none ∧
      Action.interactiveCall ∉ (authenticate_google_calendar w).1) := by
  unfold authenticate_google_calendar
  rw [hload]
  cases hrr : w.refreshResult <;> simp [hv, he, hr, hrr, List.count_cons]

/-- C2 (witness): the amended theorem at the failing-refresh world. -/
theorem C2_refresh_failure_aborts_witness :
    (authenticate_google_calendar
        { calendarId := some "cal", tokenFile := some ⟨false, true, true⟩,
          refreshResult := none, interactiveResult := some ⟨true, false, false⟩,
          service := fun _ => true }).1.count Action.refreshCall = 1 ∧
    (authenticate_google_calendar
        { calendarId := some "cal", tokenFile := some ⟨false, true, true⟩,
          refreshResult := none, interactiveResult := some ⟨true, false, false⟩,
          service := fun _ => true }).2 = none ∧
    Action.interactiveCall ∉
      (authenticate_google_calendar
        { calendarId := some "cal", tokenFile := some ⟨false, true, true⟩,
          refreshResult := none, interactiveResult := some ⟨true, false, false⟩,
          service := fun _ => true }).1 :=
  have h := C2_refresh_failure_aborts
    { calendarId := some "cal", tokenFile := some ⟨false, true, true⟩,
      refreshResult := none, interactiveResult := some ⟨true, false, false⟩,
      service := fun _ => true } ⟨false, true, true⟩ rfl rfl rfl rfl
  ⟨h.1, (h.2 rfl).1, (h.2 rfl).2⟩

/-- C7: when the calendar identifier is unset or the empty string, `main` stops
at the pre-flight configuration check: it performs no action and ends in the
distinguished `configError` outcome, which is not a completed import. -/
theorem C7_config_error_on_missing_or_empty_id (w : World) (rows : List Row)
    (h : w.calendarId = none ∨ w.calendarId = some "") :
    main w rows = ([], MainOutcome.configError) ∧
    (∀ calls, MainOutcome.configError ≠ MainOutcome.completed calls) := by
  refine ⟨?_, fun calls => MainOutcome.noConfusion⟩
  unfold main mainBody
  rcases h with h | h <;> rw [h] <;> simp

/-- C7 (witness): the theorem at both a missing and an empty calendar id. -/
theorem C7_config_error_on_missing_or_empty_id_witness :
    main { calendarId := none, tokenFile := none, refreshResult := none,
           interactiveResult := none, service := fun _ => true } [] =
      ([], MainOutcome.configError) ∧
    main { calendarId := some "", tokenFile := none, refreshResult := none,
           interactiveResult := none, service := fun _ => true } [] =
      ([], MainOutcome.configError) :=
  ⟨(C7_config_error_on_missing_or_empty_id
      { calendarId := none, tokenFile := none, refreshResult := none,
        interactiveResult := none, service := fun _ => true } [] (Or.inl rfl)).1,
   (C7_config_error_on_missing_or_empty_id
      { calendarId := some "", tokenFile := none, refreshResult := none,
        interactiveResult := none, service := fun _ => true } [] (Or.inr rfl)).1⟩

/-- C8: when the calendar identifier is missing from the environment, the run
performs no external action at all: no token refresh, no interactive grant,
and no event insertion. -/
theorem C8_no_network_without_calendar_id (w : World) (rows : List Row)
    (h : w.calendarId = none) :
    (main w rows).1 = [] ∧
    Action.refreshCall ∉ (main w rows).1 ∧
    Action.interactiveCall ∉ (main w rows).1 ∧
    ∀ ev b, Action.insertCall ev b ∉ (main w rows).1 := by
  have hm : main w rows = ([], MainOutcome.configError) := by
    unfold main mainBody
    rw [h]
    simp
  rw [hm]
  exact ⟨rfl, by simp, by simp, fun ev b => by simp⟩

/-- C8 (witness): the theorem at a concrete world with no calendar id. -/
theorem C8_no_network_without_calendar_id_witness :
    (main { calendarId := none, tokenFile := some ⟨false, true, true⟩,
            refreshResult := none, interactiveResult := some ⟨true, false, false⟩,
            service := fun _ => true }
        [⟨"A", "2024-10-14", "07:00", "2024-10-14", "08:00", "d1", "l1"⟩]).1 = [] :=
  (C8_no_network_without_calendar_id
    { calendarId := none, tokenFile := some ⟨false, true, true⟩,
      refreshResult := none, interactiveResult := some ⟨true, false, false⟩,
      service := fun _ => true }
    [⟨"A", "2024-10-14", "07:00", "2024-10-14", "08:00", "d1", "l1"⟩] rfl).1

/-- C9: `token.json` is written exactly when the in-memory credential is
replaced — that is, when authentication returns a handle and the loaded token
was not already valid (successful refresh or new interactive grant) — and a
run that finds a valid loaded token performs no external action at all, so the
credential file's content is left unchanged. -/
theorem C9_token_file_overwritten_iff_replaced (w : World) :
    (Action.writeToken ∈ (authenticate_google_calendar w).1 ↔
      ((authenticate_google_calendar w).2.isSome ∧
        ¬∃ c, w.tokenFile = some c ∧ c.valid = true)) ∧
    (∀ c, w.tokenFile = some c → c.valid = true →
      (authenticate_google_calendar w).1 = []) := by
  unfold authenticate_google_calendar
  cases htf : w.tokenFile with
  | none => cases hir : w.interactiveResult <;> simp
  | some c =>
    by_cases hv : c.valid
    · simp [hv]
    · by_cases hre : c.expired ∧ c.refreshToken
      · cases hrr : w.refreshResult <;> simp [hv, hre, hrr]
      · cases hir : w.interactiveResult <;> simp [hv, hre, hir]

/-- C9 (witness): with a valid loaded token, no write (and no other action)
occurs. -/
theorem C9_token_file_overwritten_iff_replaced_witness :
    (authenticate_google_calendar
        { calendarId := some "cal", tokenFile := some ⟨true, false, true⟩,
          refreshResult := none, interactiveResult := none,
          service := fun _ => true }).1 = [] :=
  (C9_token_file_overwritten_iff_replaced
    { calendarId := some "cal", tokenFile := some ⟨true, false, true⟩,
      refreshResult := none, interactiveResult := none,
      service := fun _ => true }).2 ⟨true, false, true⟩ rfl rfl

/-- C10: `main` never propagates an exception: it ends in the logged-error
outcome exactly when an exception escapes its `try` body (auth failure or
row-parse failure included), and it always returns normally with the body's
action trace — so the process ends with the default success status even on a
fatal error. -/
theorem C10_top_level_catches_everything (w : World) (rows : List Row) :
    ((main w rows).2 = MainOutcome.errorLogged ↔ (mainBody w rows).2 = none) ∧
    (main w rows).1 = (mainBody w rows).1 := by
  unfold main
  rcases hb : mainBody w rows with ⟨tr, res⟩
  cases res with
  | none => simp
  | some br => cases br <;> simp

/-- C10 (witness): a failed interactive grant raises inside the body, and
`main` returns normally with the error logged. -/
theorem C10_top_level_catches_everything_witness :
    (main { calendarId := some "cal", tokenFile := none, refreshResult := none,
            interactiveResult := none, service := fun _ => true } []).2 =
      MainOutcome.errorLogged :=
  (C10_top_level_catches_everything
    { calendarId := some "cal", tokenFile := none, refreshResult := none,
      interactiveResult := none, service := fun _ => true } []).1.mpr rfl

end GCal
